import Mathlib

/-!
Verification of the fetch-and-cache weather client (`src/weather_api.py`)
and the service facade (`src/weather_service.py`) of the weather CLI app.

The Python code is shallowly embedded: the process-global mutable caches
become explicit cache values threaded through the fetch functions, the
`requests` HTTP round trip becomes an explicit `HttpResponse` argument
describing what the provider would answer on this call (the response
object's behaviour follows the repository's own `DummyResponse` test
double: `raise_for_status` raises exactly on a status outside 200..299),
wall-clock time becomes an explicit `now : Int` argument, and raised
exceptions become `Except` errors.  Each fetch function also reports how
many network calls it issued (0 on a cache hit, 1 otherwise).
-/

namespace WeatherApp

/-- `CACHE_TTL = 600` seconds (`src/weather_api.py`). -/
def CACHE_TTL : Int := 600

/-- The parsed JSON body of a current-conditions response:
`{name, main:{temp, humidity}, weather:[{description}, ...], wind:{speed}}`.
The `weather` field keeps the list of `description` strings so that an
empty `weather` array (an index error in the Python code, mapped to the
generic error) is representable. -/
structure CurrentPayload where
  name : String
  main_temp : Rat
  main_humidity : Int
  weather : List String
  wind_speed : Rat
deriving DecidableEq, Repr

/-- The normalized snapshot returned by `fetch_current_weather`:
the Python dict `{city, temp, condition, humidity, wind_speed}`. -/
structure CurrentResult where
  city : String
  temp : Rat
  condition : String
  humidity : Int
  wind_speed : Rat
deriving DecidableEq, Repr

/-- One element of the provider forecast `list` array:
`{dt_txt, main:{temp}, weather:[{description}, ...]}`. -/
structure ForecastItem where
  dt_txt : String
  main_temp : Rat
  weather : List String
deriving DecidableEq, Repr

/-- The parsed JSON body of a forecast response: `{city:{name}, list:[...]}`. -/
structure ForecastPayload where
  city_name : String
  list : List ForecastItem
deriving DecidableEq, Repr

/-- One normalized forecast entry: the Python dict
`{datetime, temp, condition}` built in the loop of `fetch_forecast`. -/
structure ForecastEntry where
  datetime : String
  temp : Rat
  condition : String
deriving DecidableEq, Repr

/-- The normalized forecast result: the Python dict `{city, forecasts}`. -/
structure ForecastResult where
  city : String
  forecasts : List ForecastEntry
deriving DecidableEq, Repr

/-- What `requests.get` does on one call: either a response arrives,
carrying an HTTP status code and a parsed JSON body, or the call raises a
transport exception (`requests.exceptions.RequestException`). -/
inductive HttpResponse (α : Type) where
  | response (status : Nat) (body : α)
  | transportError
deriving DecidableEq, Repr

/-- The exceptions `fetch_current_weather` / `fetch_forecast` can raise:
`CityNotFoundError` (carrying the requested city) or the generic
`WeatherAPIError` (carrying a human-readable message). -/
inductive WeatherError where
  | cityNotFound (city : String)
  | apiError (msg : String)
deriving DecidableEq, Repr

/-- A cache entry value: the Python dict `{'timestamp': now, 'data': result}`. -/
structure CacheEntry (α : Type) where
  timestamp : Int
  data : α
deriving DecidableEq, Repr

/-- Python `str.lower()` as used for `key = city.lower()`: lower-case the
string character by character. -/
def strLower (s : String) : String := String.mk (s.data.map Char.toLower)

/-- Python dict lookup `d.get(k)` on an association-list model of a dict. -/
def dictGet {β : Type} (m : List (String × β)) (k : String) : Option β :=
  match m with
  | [] => none
  | (k', v) :: rest => if k' = k then some v else dictGet rest k

/-- Python dict assignment `d[k] = v`: overwrite in place if the key is
present, append otherwise. -/
def dictInsert {β : Type} (m : List (String × β)) (k : String) (v : β) :
    List (String × β) :=
  match m with
  | [] => [(k, v)]
  | (k', v') :: rest =>
      if k' = k then (k, v) :: rest else (k', v') :: dictInsert rest k v

/-- The `_cache['current']` dict: lower-cased city ↦ cache entry. -/
abbrev CurrentCache := List (String × CacheEntry CurrentResult)

/-- The `_cache['forecast']` dict: lower-cased city ↦ cache entry. -/
abbrev ForecastCache := List (String × CacheEntry ForecastResult)

/-- `true` iff the cache check of the Python code would NOT serve `key`
from `cache` at time `now` (no entry, or the entry is stale). -/
def cacheMiss {α : Type} (cache : List (String × CacheEntry α))
    (key : String) (now : Int) : Bool :=
  match dictGet cache key with
  | none => true
  | some entry => if now - entry.timestamp < CACHE_TTL then false else true

/-- The body of `fetch_current_weather` after the cache check failed:
issue the HTTP request, map a 404 to `CityNotFoundError`, any other
non-2xx status (via `raise_for_status`) or transport failure to
`WeatherAPIError`, otherwise normalize the payload
(`city ← name`, `temp ← main.temp`, `condition ← weather[0].description`,
`humidity ← main.humidity`, `wind_speed ← wind.speed`; an empty `weather`
array is an index error, mapped to `WeatherAPIError` by the final
`except Exception` clause), write the cache and return the snapshot.
Returns (outcome, updated cache, number of network calls). -/
def fetchCurrentNetwork (city : String) (now : Int)
    (resp : HttpResponse CurrentPayload) (cache : CurrentCache)
    (key : String) :
    Except WeatherError CurrentResult × CurrentCache × Nat :=
  match resp with
  | .transportError =>
      (.error (.apiError ("Request error fetching current weather for " ++ city)),
       cache, 1)
  | .response status data =>
      if status = 404 then
        (.error (.cityNotFound city), cache, 1)
      else if ¬ (200 ≤ status ∧ status < 300) then
        (.error (.apiError ("HTTP error fetching current weather for " ++ city)),
         cache, 1)
      else
        match data.weather.head? with
        | none =>
            (.error (.apiError
               ("Unexpected error processing current weather for " ++ city)),
             cache, 1)
        | some desc =>
            let result : CurrentResult :=
              { city := data.name
                temp := data.main_temp
                condition := desc
                humidity := data.main_humidity
                wind_speed := data.wind_speed }
            (.ok result, dictInsert cache key { timestamp := now, data := result }, 1)

/-- `fetch_current_weather(city)` (`src/weather_api.py`): check the
current-conditions cache under the lower-cased city; serve a fresh entry
(`now - timestamp < CACHE_TTL`) with no network call, otherwise go to the
network. -/
def fetch_current_weather (city : String) (now : Int)
    (resp : HttpResponse CurrentPayload) (cache : CurrentCache) :
    Except WeatherError CurrentResult × CurrentCache × Nat :=
  match dictGet cache (strLower city) with
  | some entry =>
      if now - entry.timestamp < CACHE_TTL then (.ok entry.data, cache, 0)
      else fetchCurrentNetwork city now resp cache (strLower city)
  | none => fetchCurrentNetwork city now resp cache (strLower city)

/-- The loop `for item in data['list']` of `fetch_forecast`: map each item
to `{datetime ← dt_txt, temp ← main.temp, condition ← weather[0].description}`
in order; an item with an empty `weather` array is an index error, so the
whole parse fails (`none`). -/
def forecastEntries : List ForecastItem → Option (List ForecastEntry)
  | [] => some []
  | item :: rest =>
      match item.weather.head? with
      | none => none
      | some desc =>
          (forecastEntries rest).map
            (fun es => { datetime := item.dt_txt
                         temp := item.main_temp
                         condition := desc } :: es)

/-- The body of `fetch_forecast` after the cache check failed: same error
mapping as `fetchCurrentNetwork`; on success the result is
`{city ← city.name, forecasts ← mapped list}` and the cache is written. -/
def fetchForecastNetwork (city : String) (now : Int)
    (resp : HttpResponse ForecastPayload) (cache : ForecastCache)
    (key : String) :
    Except WeatherError ForecastResult × ForecastCache × Nat :=
  match resp with
  | .transportError =>
      (.error (.apiError ("Request error fetching forecast for " ++ city)),
       cache, 1)
  | .response status data =>
      if status = 404 then
        (.error (.cityNotFound city), cache, 1)
      else if ¬ (200 ≤ status ∧ status < 300) then
        (.error (.apiError ("HTTP error fetching forecast for " ++ city)),
         cache, 1)
      else
        match forecastEntries data.list with
        | none =>
            (.error (.apiError
               ("Unexpected error processing forecast data for " ++ city)),
             cache, 1)
        | some forecasts =>
            let result : ForecastResult :=
              { city := data.city_name, forecasts := forecasts }
            (.ok result, dictInsert cache key { timestamp := now, data := result }, 1)

/-- `fetch_forecast(city)` (`src/weather_api.py`): identical cache policy
to `fetch_current_weather`, against the separate forecast cache. -/
def fetch_forecast (city : String) (now : Int)
    (resp : HttpResponse ForecastPayload) (cache : ForecastCache) :
    Except WeatherError ForecastResult × ForecastCache × Nat :=
  match dictGet cache (strLower city) with
  | some entry =>
      if now - entry.timestamp < CACHE_TTL then (.ok entry.data, cache, 0)
      else fetchForecastNetwork city now resp cache (strLower city)
  | none => fetchForecastNetwork city now resp cache (strLower city)

/-- `get_current_weather(city)` (`src/weather_service.py`): the body is
exactly `return fetch_current_weather(city)` — no `try`/`except`, so any
exception the client raises propagates to the caller unchanged. -/
def get_current_weather (city : String) (now : Int)
    (resp : HttpResponse CurrentPayload) (cache : CurrentCache) :
    Except WeatherError CurrentResult × CurrentCache × Nat :=
  fetch_current_weather city now resp cache

/-- `get_forecast(city)` (`src/weather_service.py`): the body is exactly
`return fetch_forecast(city)`. -/
def get_forecast (city : String) (now : Int)
    (resp : HttpResponse ForecastPayload) (cache : ForecastCache) :
    Except WeatherError ForecastResult × ForecastCache × Nat :=
  fetch_forecast city now resp cache

/-- A concrete 200-response body for current conditions, used by the
closed witness theorems. -/
def parisPayload : CurrentPayload :=
  { name := "Paris", main_temp := 20, main_humidity := 45,
    weather := ["sunny"], wind_speed := 3 }

/-- The snapshot the client builds from `parisPayload`. -/
def parisResult : CurrentResult :=
  { city := "Paris", temp := 20, condition := "sunny",
    humidity := 45, wind_speed := 3 }

/-- The current-conditions cache after fetching `parisPayload` at time 0. -/
def parisCache : CurrentCache :=
  [("paris", { timestamp := 0, data := parisResult })]

/-- A concrete 200-response body for the forecast endpoint (the concrete
scenario of the spec), used by the closed witness theorems. -/
def lyonForecastPayload : ForecastPayload :=
  { city_name := "Lyon"
    list := [ { dt_txt := "2025-01-01 00:00:00", main_temp := 1,
                weather := ["snow"] },
              { dt_txt := "2025-01-01 03:00:00", main_temp := 2,
                weather := ["cloudy"] } ] }

/-- The forecast result the client builds from `lyonForecastPayload`. -/
def lyonForecastResult : ForecastResult :=
  { city := "Lyon"
    forecasts := [ { datetime := "2025-01-01 00:00:00", temp := 1,
                     condition := "snow" },
                   { datetime := "2025-01-01 03:00:00", temp := 2,
                     condition := "cloudy" } ] }

/-- The forecast cache after fetching `lyonForecastPayload` at time 0. -/
def lyonForecastCache : ForecastCache :=
  [("lyon", { timestamp := 0, data := lyonForecastResult })]

/-- The Python exception classes relevant to the module: the two classes
declared in `src/weather_api.py` plus the library classes they interact
with in the `except` clauses. -/
inductive ExcClass where
  | exc
  | requestException
  | httpError
  | weatherAPIError
  | cityNotFoundError
deriving DecidableEq, Repr

/-- The ancestor chain (method resolution order, collapsed to the classes
modelled here) of each class: `class WeatherAPIError(Exception)` and
`class CityNotFoundError(WeatherAPIError)` from `src/weather_api.py`;
`HTTPError < RequestException < Exception` from the `requests` library. -/
def ancestors : ExcClass → List ExcClass
  | .exc => [.exc]
  | .requestException => [.requestException, .exc]
  | .httpError => [.httpError, .requestException, .exc]
  | .weatherAPIError => [.weatherAPIError, .exc]
  | .cityNotFoundError => [.cityNotFoundError, .weatherAPIError, .exc]

/-- Python `issubclass c d`: `d` is on the ancestor chain of `c`. -/
def isSubclass (c d : ExcClass) : Bool := (ancestors c).contains d

/-- The dynamic class of a raised error value. -/
def WeatherError.classOf : WeatherError → ExcClass
  | .cityNotFound _ => .cityNotFoundError
  | .apiError _ => .weatherAPIError

/-- Python `except` dispatch: the index of the first handler clause whose
class the raised exception is an instance of, if any. -/
def firstHandler (raised : ExcClass) : List ExcClass → Option Nat
  | [] => none
  | h :: rest =>
      if isSubclass raised h then some 0
      else (firstHandler raised rest).map (· + 1)

/-! ### Dictionary lemmas -/

theorem dictGet_dictInsert {β : Type} (m : List (String × β))
    (k j : String) (v : β) :
    dictGet (dictInsert m k v) j = if k = j then some v else dictGet m j := by
  induction m with
  | nil => by_cases h : k = j <;> simp [dictGet, dictInsert, h]
  | cons hd tl ih =>
      obtain ⟨k', v'⟩ := hd
      by_cases hk : k' = k
      · subst hk
        by_cases hj : k' = j <;> simp [dictGet, dictInsert, hj]
      · by_cases hj : k' = j
        · have hkj : ¬ k = j := fun hkj => hk (hj.trans hkj.symm)
          have hjk : ¬ j = k := fun hjk => hkj hjk.symm
          simp [dictGet, dictInsert, hk, hj, hkj, hjk]
        · simp [dictGet, dictInsert, hk, hj, ih]

theorem dictGet_dictInsert_self {β : Type} (m : List (String × β))
    (k : String) (v : β) : dictGet (dictInsert m k v) k = some v := by
  simp [dictGet_dictInsert]

theorem dictGet_dictInsert_isSome {β : Type} (m : List (String × β))
    (k j : String) (v : β) (h : (dictGet m j).isSome = true) :
    (dictGet (dictInsert m k v) j).isSome = true := by
  rw [dictGet_dictInsert]
  by_cases hkj : k = j
  · simp [hkj]
  · simp [hkj, h]

/-! ### Shape lemmas for the network paths -/

theorem fetchCurrentNetwork_calls (city : String) (now : Int)
    (resp : HttpResponse CurrentPayload) (cache : CurrentCache)
    (key : String) :
    (fetchCurrentNetwork city now resp cache key).2.2 = 1 := by
  unfold fetchCurrentNetwork
  cases resp with
  | transportError => rfl
  | response status data =>
      by_cases h404 : status = 404
      · simp [h404]
      · by_cases h2xx : 200 ≤ status ∧ status < 300
        · cases hw : data.weather.head? <;> simp [h404, h2xx, hw]
        · simp [h404, h2xx]

theorem fetchForecastNetwork_calls (city : String) (now : Int)
    (resp : HttpResponse ForecastPayload) (cache : ForecastCache)
    (key : String) :
    (fetchForecastNetwork city now resp cache key).2.2 = 1 := by
  unfold fetchForecastNetwork
  cases resp with
  | transportError => rfl
  | response status data =>
      by_cases h404 : status = 404
      · simp [h404]
      · by_cases h2xx : 200 ≤ status ∧ status < 300
        · cases hw : forecastEntries data.list <;> simp [h404, h2xx, hw]
        · simp [h404, h2xx]

theorem fetchCurrentNetwork_ok (city : String) (now : Int)
    (resp : HttpResponse CurrentPayload) (cache : CurrentCache)
    (key : String) (r : CurrentResult)
    (h : (fetchCurrentNetwork city now resp cache key).1 = .ok r) :
    fetchCurrentNetwork city now resp cache key
      = (.ok r, dictInsert cache key { timestamp := now, data := r }, 1) := by
  unfold fetchCurrentNetwork at h ⊢
  cases resp with
  | transportError => simp at h
  | response status data =>
      by_cases h404 : status = 404
      · simp [h404] at h
      · by_cases h2xx : 200 ≤ status ∧ status < 300
        · cases hw : data.weather.head? with
          | none => simp [h404, h2xx, hw] at h
          | some desc =>
              simp [h404, h2xx, hw] at h ⊢
              simp [← h]
        · simp [h404, h2xx] at h

theorem fetchForecastNetwork_ok (city : String) (now : Int)
    (resp : HttpResponse ForecastPayload) (cache : ForecastCache)
    (key : String) (r : ForecastResult)
    (h : (fetchForecastNetwork city now resp cache key).1 = .ok r) :
    fetchForecastNetwork city now resp cache key
      = (.ok r, dictInsert cache key { timestamp := now, data := r }, 1) := by
  unfold fetchForecastNetwork at h ⊢
  cases resp with
  | transportError => simp at h
  | response status data =>
      by_cases h404 : status = 404
      · simp [h404] at h
      · by_cases h2xx : 200 ≤ status ∧ status < 300
        · cases hw : forecastEntries data.list with
          | none => simp [h404, h2xx, hw] at h
          | some forecasts =>
              simp [h404, h2xx, hw] at h ⊢
              simp [← h]
        · simp [h404, h2xx] at h

theorem fetchCurrentNetwork_error_cache (city : String) (now : Int)
    (resp : HttpResponse CurrentPayload) (cache : CurrentCache)
    (key : String) (e : WeatherError)
    (h : (fetchCurrentNetwork city now resp cache key).1 = .error e) :
    (fetchCurrentNetwork city now resp cache key).2.1 = cache := by
  unfold fetchCurrentNetwork at h ⊢
  cases resp with
  | transportError => rfl
  | response status data =>
      by_cases h404 : status = 404
      · simp [h404]
      · by_cases h2xx : 200 ≤ status ∧ status < 300
        · cases hw : data.weather.head? with
          | none => simp [h404, h2xx, hw]
          | some desc => simp [h404, h2xx, hw] at h
        · simp [h404, h2xx]

theorem fetchForecastNetwork_error_cache (city : String) (now : Int)
    (resp : HttpResponse ForecastPayload) (cache : ForecastCache)
    (key : String) (e : WeatherError)
    (h : (fetchForecastNetwork city now resp cache key).1 = .error e) :
    (fetchForecastNetwork city now resp cache key).2.1 = cache := by
  unfold fetchForecastNetwork at h ⊢
  cases resp with
  | transportError => rfl
  | response status data =>
      by_cases h404 : status = 404
      · simp [h404]
      · by_cases h2xx : 200 ≤ status ∧ status < 300
        · cases hw : forecastEntries data.list with
          | none => simp [h404, h2xx, hw]
          | some forecasts => simp [h404, h2xx, hw] at h
        · simp [h404, h2xx]

/-! ### Dispatch lemmas for the cache check -/

theorem fetch_current_of_miss (city : String) (now : Int)
    (resp : HttpResponse CurrentPayload) (cache : CurrentCache)
    (h : cacheMiss cache (strLower city) now = true) :
    fetch_current_weather city now resp cache
      = fetchCurrentNetwork city now resp cache (strLower city) := by
  unfold cacheMiss at h
  unfold fetch_current_weather
  cases hg : dictGet cache (strLower city) with
  | none => rfl
  | some entry =>
      rw [hg] at h
      by_cases hf : now - entry.timestamp < CACHE_TTL
      · simp [hf] at h
      · simp [hf]

theorem fetch_forecast_of_miss (city : String) (now : Int)
    (resp : HttpResponse ForecastPayload) (cache : ForecastCache)
    (h : cacheMiss cache (strLower city) now = true) :
    fetch_forecast city now resp cache
      = fetchForecastNetwork city now resp cache (strLower city) := by
  unfold cacheMiss at h
  unfold fetch_forecast
  cases hg : dictGet cache (strLower city) with
  | none => rfl
  | some entry =>
      rw [hg] at h
      by_cases hf : now - entry.timestamp < CACHE_TTL
      · simp [hf] at h
      · simp [hf]

theorem fetch_current_network_of_calls_one (city : String) (now : Int)
    (resp : HttpResponse CurrentPayload) (cache : CurrentCache)
    (h : (fetch_current_weather city now resp cache).2.2 = 1) :
    fetch_current_weather city now resp cache
      = fetchCurrentNetwork city now resp cache (strLower city) := by
  unfold fetch_current_weather at h ⊢
  cases hg : dictGet cache (strLower city) with
  | none => rfl
  | some entry =>
      rw [hg] at h
      by_cases hf : now - entry.timestamp < CACHE_TTL
      · simp [hf] at h
      · simp [hf]

theorem fetch_forecast_network_of_calls_one (city : String) (now : Int)
    (resp : HttpResponse ForecastPayload) (cache : ForecastCache)
    (h : (fetch_forecast city now resp cache).2.2 = 1) :
    fetch_forecast city now resp cache
      = fetchForecastNetwork city now resp cache (strLower city) := by
  unfold fetch_forecast at h ⊢
  cases hg : dictGet cache (strLower city) with
  | none => rfl
  | some entry =>
      rw [hg] at h
      by_cases hf : now - entry.timestamp < CACHE_TTL
      · simp [hf] at h
      · simp [hf]

theorem fetch_current_hit (city : String) (now : Int)
    (resp : HttpResponse CurrentPayload) (cache : CurrentCache)
    (entry : CacheEntry CurrentResult)
    (hg : dictGet cache (strLower city) = some entry)
    (hf : now - entry.timestamp < CACHE_TTL) :
    fetch_current_weather city now resp cache = (.ok entry.data, cache, 0) := by
  unfold fetch_current_weather
  rw [hg]
  simp [hf]

theorem fetch_forecast_hit (city : String) (now : Int)
    (resp : HttpResponse ForecastPayload) (cache : ForecastCache)
    (entry : CacheEntry ForecastResult)
    (hg : dictGet cache (strLower city) = some entry)
    (hf : now - entry.timestamp < CACHE_TTL) :
    fetch_forecast city now resp cache = (.ok entry.data, cache, 0) := by
  unfold fetch_forecast
  rw [hg]
  simp [hf]

theorem fetchCurrentNetwork_ok_fields (city : String) (now : Int)
    (status : Nat) (data : CurrentPayload) (cache : CurrentCache)
    (key : String) (r : CurrentResult)
    (h : (fetchCurrentNetwork city now (.response status data) cache key).1
        = .ok r) :
    r.city = data.name ∧ r.temp = data.main_temp ∧
    data.weather.head? = some r.condition ∧
    r.humidity = data.main_humidity ∧ r.wind_speed = data.wind_speed := by
  unfold fetchCurrentNetwork at h
  by_cases h404 : status = 404
  · simp [h404] at h
  · by_cases h2xx : 200 ≤ status ∧ status < 300
    · cases hw : data.weather.head? with
      | none => simp [h404, h2xx, hw] at h
      | some desc =>
          simp [h404, h2xx, hw] at h
          simp [← h, hw]
    · simp [h404, h2xx] at h

theorem fetchForecastNetwork_ok_fields (city : String) (now : Int)
    (status : Nat) (data : ForecastPayload) (cache : ForecastCache)
    (key : String) (r : ForecastResult)
    (h : (fetchForecastNetwork city now (.response status data) cache key).1
        = .ok r) :
    r.city = data.city_name ∧ forecastEntries data.list = some r.forecasts := by
  unfold fetchForecastNetwork at h
  by_cases h404 : status = 404
  · simp [h404] at h
  · by_cases h2xx : 200 ≤ status ∧ status < 300
    · cases hw : forecastEntries data.list with
      | none => simp [h404, h2xx, hw] at h
      | some forecasts =>
          simp [h404, h2xx, hw] at h
          simp [← h, hw]
    · simp [h404, h2xx] at h

/-! ### C1: cache hit within the TTL window -/

/-- C1: for every city, two consecutive fetches of the same kind
(current-conditions or forecast) within the TTL window (elapsed time
< 600 seconds) issue exactly one network call and return identical
results: given a first fetch that issued its one network call and
succeeded, a second fetch of the same kind at any time `t1` with
`t1 - t0 < CACHE_TTL` returns the same result, issues 0 further network
calls, and does not consult the provider (the conclusion holds for every
`resp'` the provider might have answered). -/
theorem cache_hit_avoids_network_call :
    (∀ (city : String) (t0 t1 : Int) (resp resp' : HttpResponse CurrentPayload)
        (cache cache1 : CurrentCache) (r : CurrentResult),
        fetch_current_weather city t0 resp cache = (.ok r, cache1, 1) →
        t1 - t0 < CACHE_TTL →
        fetch_current_weather city t1 resp' cache1 = (.ok r, cache1, 0)) ∧
    (∀ (city : String) (t0 t1 : Int) (resp resp' : HttpResponse ForecastPayload)
        (cache cache1 : ForecastCache) (r : ForecastResult),
        fetch_forecast city t0 resp cache = (.ok r, cache1, 1) →
        t1 - t0 < CACHE_TTL →
        fetch_forecast city t1 resp' cache1 = (.ok r, cache1, 0)) := by
  constructor
  · intro city t0 t1 resp resp' cache cache1 r hfirst hfresh
    have hcalls : (fetch_current_weather city t0 resp cache).2.2 = 1 := by
      rw [hfirst]
    have hnet := fetch_current_network_of_calls_one city t0 resp cache hcalls
    rw [hnet] at hfirst
    have hok : (fetchCurrentNetwork city t0 resp cache (strLower city)).1 = .ok r := by
      rw [hfirst]
    have hshape := fetchCurrentNetwork_ok city t0 resp cache (strLower city) r hok
    have hcache1 : cache1 = dictInsert cache (strLower city)
        { timestamp := t0, data := r } := by
      rw [hshape] at hfirst
      exact (Prod.ext_iff.mp (Prod.ext_iff.mp hfirst.symm).2).1
    have hg : dictGet cache1 (strLower city)
        = some { timestamp := t0, data := r } := by
      rw [hcache1]; exact dictGet_dictInsert_self _ _ _
    exact fetch_current_hit city t1 resp' cache1 _ hg hfresh
  · intro city t0 t1 resp resp' cache cache1 r hfirst hfresh
    have hcalls : (fetch_forecast city t0 resp cache).2.2 = 1 := by
      rw [hfirst]
    have hnet := fetch_forecast_network_of_calls_one city t0 resp cache hcalls
    rw [hnet] at hfirst
    have hok : (fetchForecastNetwork city t0 resp cache (strLower city)).1 = .ok r := by
      rw [hfirst]
    have hshape := fetchForecastNetwork_ok city t0 resp cache (strLower city) r hok
    have hcache1 : cache1 = dictInsert cache (strLower city)
        { timestamp := t0, data := r } := by
      rw [hshape] at hfirst
      exact (Prod.ext_iff.mp (Prod.ext_iff.mp hfirst.symm).2).1
    have hg : dictGet cache1 (strLower city)
        = some { timestamp := t0, data := r } := by
      rw [hcache1]; exact dictGet_dictInsert_self _ _ _
    exact fetch_forecast_hit city t1 resp' cache1 _ hg hfresh

/-- Witness for C1 at a concrete run: a first fetch of "Paris" at time 0
against an empty cache with a 200 response, then a second fetch at time
599 that is served from cache even though the provider would now fail. -/
theorem cache_hit_avoids_network_call_witness :
    fetch_current_weather "Paris" 0 (.response 200 parisPayload) []
      = (.ok parisResult, parisCache, 1) ∧
    (599 : Int) - 0 < CACHE_TTL ∧
    fetch_current_weather "Paris" 599 .transportError parisCache
      = (.ok parisResult, parisCache, 0) :=
  ⟨by rfl, by decide,
   cache_hit_avoids_network_call.1 "Paris" 0 599 (.response 200 parisPayload)
     .transportError [] parisCache parisResult (by rfl) (by decide)⟩

/-! ### C2: cache expiry forces a refetch -/

/-- C2: for every city and kind, a fetch at time `t0` that populates the
cache followed by a fetch at `t1` with `t1 - t0 ≥ CACHE_TTL` issues a
fresh network call, and (when that call succeeds) overwrites the cache
entry with the new timestamp `t1` and the new payload — for every
returned payload `r'`, identical to the stale one or not. -/
theorem cache_expiry_forces_refetch :
    (∀ (city : String) (t0 t1 : Int) (resp resp' : HttpResponse CurrentPayload)
        (cache cache1 : CurrentCache) (r : CurrentResult),
        fetch_current_weather city t0 resp cache = (.ok r, cache1, 1) →
        CACHE_TTL ≤ t1 - t0 →
        (fetch_current_weather city t1 resp' cache1).2.2 = 1 ∧
        ∀ r' : CurrentResult,
          (fetch_current_weather city t1 resp' cache1).1 = .ok r' →
          (fetch_current_weather city t1 resp' cache1).2.1
            = dictInsert cache1 (strLower city)
                { timestamp := t1, data := r' }) ∧
    (∀ (city : String) (t0 t1 : Int) (resp resp' : HttpResponse ForecastPayload)
        (cache cache1 : ForecastCache) (r : ForecastResult),
        fetch_forecast city t0 resp cache = (.ok r, cache1, 1) →
        CACHE_TTL ≤ t1 - t0 →
        (fetch_forecast city t1 resp' cache1).2.2 = 1 ∧
        ∀ r' : ForecastResult,
          (fetch_forecast city t1 resp' cache1).1 = .ok r' →
          (fetch_forecast city t1 resp' cache1).2.1
            = dictInsert cache1 (strLower city)
                { timestamp := t1, data := r' }) := by
  constructor
  · intro city t0 t1 resp resp' cache cache1 r hfirst hexp
    have hstale : ¬ (t1 - t0 < CACHE_TTL) := not_lt.mpr hexp
    have hcalls : (fetch_current_weather city t0 resp cache).2.2 = 1 := by
      rw [hfirst]
    have hnet := fetch_current_network_of_calls_one city t0 resp cache hcalls
    rw [hnet] at hfirst
    have hok : (fetchCurrentNetwork city t0 resp cache (strLower city)).1
        = .ok r := by rw [hfirst]
    have hshape := fetchCurrentNetwork_ok city t0 resp cache (strLower city) r hok
    have hcache1 : cache1 = dictInsert cache (strLower city)
        { timestamp := t0, data := r } := by
      rw [hshape] at hfirst
      exact (Prod.ext_iff.mp (Prod.ext_iff.mp hfirst.symm).2).1
    have hg : dictGet cache1 (strLower city)
        = some { timestamp := t0, data := r } := by
      rw [hcache1]; exact dictGet_dictInsert_self _ _ _
    have hmiss : cacheMiss cache1 (strLower city) t1 = true := by
      unfold cacheMiss
      rw [hg]
      simp [hstale]
    have hnet2 := fetch_current_of_miss city t1 resp' cache1 hmiss
    refine ⟨by rw [hnet2]; exact fetchCurrentNetwork_calls _ _ _ _ _, ?_⟩
    intro r' hok'
    rw [hnet2] at hok' ⊢
    rw [fetchCurrentNetwork_ok city t1 resp' cache1 (strLower city) r' hok']
  · intro city t0 t1 resp resp' cache cache1 r hfirst hexp
    have hstale : ¬ (t1 - t0 < CACHE_TTL) := not_lt.mpr hexp
    have hcalls : (fetch_forecast city t0 resp cache).2.2 = 1 := by
      rw [hfirst]
    have hnet := fetch_forecast_network_of_calls_one city t0 resp cache hcalls
    rw [hnet] at hfirst
    have hok : (fetchForecastNetwork city t0 resp cache (strLower city)).1
        = .ok r := by rw [hfirst]
    have hshape := fetchForecastNetwork_ok city t0 resp cache (strLower city) r hok
    have hcache1 : cache1 = dictInsert cache (strLower city)
        { timestamp := t0, data := r } := by
      rw [hshape] at hfirst
      exact (Prod.ext_iff.mp (Prod.ext_iff.mp hfirst.symm).2).1
    have hg : dictGet cache1 (strLower city)
        = some { timestamp := t0, data := r } := by
      rw [hcache1]; exact dictGet_dictInsert_self _ _ _
    have hmiss : cacheMiss cache1 (strLower city) t1 = true := by
      unfold cacheMiss
      rw [hg]
      simp [hstale]
    have hnet2 := fetch_forecast_of_miss city t1 resp' cache1 hmiss
    refine ⟨by rw [hnet2]; exact fetchForecastNetwork_calls _ _ _ _ _, ?_⟩
    intro r' hok'
    rw [hnet2] at hok' ⊢
    rw [fetchForecastNetwork_ok city t1 resp' cache1 (strLower city) r' hok']

/-- Witness for C2: fetch "Paris" at time 0, refetch at time 600 with the
provider returning the identical payload; the second fetch issues a
network call and the entry is overwritten with timestamp 600. -/
theorem cache_expiry_forces_refetch_witness :
    fetch_current_weather "Paris" 0 (.response 200 parisPayload) []
      = (.ok parisResult, parisCache, 1) ∧
    CACHE_TTL ≤ (600 : Int) - 0 ∧
    (fetch_current_weather "Paris" 600 (.response 200 parisPayload)
        parisCache).2.2 = 1 ∧
    (fetch_current_weather "Paris" 600 (.response 200 parisPayload)
        parisCache).1 = .ok parisResult ∧
    (fetch_current_weather "Paris" 600 (.response 200 parisPayload)
        parisCache).2.1
      = dictInsert parisCache (strLower "Paris")
          { timestamp := 600, data := parisResult } :=
  ⟨by rfl, by decide,
   (cache_expiry_forces_refetch.1 "Paris" 0 600 (.response 200 parisPayload)
      (.response 200 parisPayload) [] parisCache parisResult
      (by rfl) (by decide)).1,
   by rfl,
   (cache_expiry_forces_refetch.1 "Paris" 0 600 (.response 200 parisPayload)
      (.response 200 parisPayload) [] parisCache parisResult
      (by rfl) (by decide)).2 parisResult (by rfl)⟩

/-! ### C3: case-insensitive cache key -/

/-- C3: cache-key matching is case-insensitive: for every pair of city
strings equal after lower-casing, a fetch of the second city of the same
kind within the TTL window after a successful network fetch of the first
is a cache hit (0 further network calls) returning the identical result,
and the returned city display field is whatever the provider returned
(`name` resp. `city.name` of the payload), not the lower-cased key. -/
theorem case_insensitive_cache_key :
    (∀ (c1 c2 : String) (t0 t1 : Int) (p : CurrentPayload)
        (resp' : HttpResponse CurrentPayload)
        (cache cache1 : CurrentCache) (r : CurrentResult),
        strLower c1 = strLower c2 →
        fetch_current_weather c1 t0 (.response 200 p) cache
          = (.ok r, cache1, 1) →
        t1 - t0 < CACHE_TTL →
        fetch_current_weather c2 t1 resp' cache1 = (.ok r, cache1, 0) ∧
        r.city = p.name) ∧
    (∀ (c1 c2 : String) (t0 t1 : Int) (p : ForecastPayload)
        (resp' : HttpResponse ForecastPayload)
        (cache cache1 : ForecastCache) (r : ForecastResult),
        strLower c1 = strLower c2 →
        fetch_forecast c1 t0 (.response 200 p) cache = (.ok r, cache1, 1) →
        t1 - t0 < CACHE_TTL →
        fetch_forecast c2 t1 resp' cache1 = (.ok r, cache1, 0) ∧
        r.city = p.city_name) := by
  constructor
  · intro c1 c2 t0 t1 p resp' cache cache1 r hlow hfirst hfresh
    have hcalls : (fetch_current_weather c1 t0 (.response 200 p) cache).2.2
        = 1 := by rw [hfirst]
    have hnet := fetch_current_network_of_calls_one c1 t0 (.response 200 p)
      cache hcalls
    rw [hnet] at hfirst
    have hok : (fetchCurrentNetwork c1 t0 (.response 200 p) cache
        (strLower c1)).1 = .ok r := by rw [hfirst]
    have hshape := fetchCurrentNetwork_ok c1 t0 (.response 200 p) cache
      (strLower c1) r hok
    have hcache1 : cache1 = dictInsert cache (strLower c1)
        { timestamp := t0, data := r } := by
      rw [hshape] at hfirst
      exact (Prod.ext_iff.mp (Prod.ext_iff.mp hfirst.symm).2).1
    have hg : dictGet cache1 (strLower c2)
        = some { timestamp := t0, data := r } := by
      rw [hcache1, ← hlow]; exact dictGet_dictInsert_self _ _ _
    have hfields := fetchCurrentNetwork_ok_fields c1 t0 200 p cache
      (strLower c1) r hok
    exact ⟨fetch_current_hit c2 t1 resp' cache1 _ hg hfresh, hfields.1⟩
  · intro c1 c2 t0 t1 p resp' cache cache1 r hlow hfirst hfresh
    have hcalls : (fetch_forecast c1 t0 (.response 200 p) cache).2.2 = 1 := by
      rw [hfirst]
    have hnet := fetch_forecast_network_of_calls_one c1 t0 (.response 200 p)
      cache hcalls
    rw [hnet] at hfirst
    have hok : (fetchForecastNetwork c1 t0 (.response 200 p) cache
        (strLower c1)).1 = .ok r := by rw [hfirst]
    have hshape := fetchForecastNetwork_ok c1 t0 (.response 200 p) cache
      (strLower c1) r hok
    have hcache1 : cache1 = dictInsert cache (strLower c1)
        { timestamp := t0, data := r } := by
      rw [hshape] at hfirst
      exact (Prod.ext_iff.mp (Prod.ext_iff.mp hfirst.symm).2).1
    have hg : dictGet cache1 (strLower c2)
        = some { timestamp := t0, data := r } := by
      rw [hcache1, ← hlow]; exact dictGet_dictInsert_self _ _ _
    have hfields := fetchForecastNetwork_ok_fields c1 t0 200 p cache
      (strLower c1) r hok
    exact ⟨fetch_forecast_hit c2 t1 resp' cache1 _ hg hfresh, hfields.1⟩

/-- Witness for C3: fetch "Paris" then "PARIS" within the TTL window; the
second is a cache hit with no network call, and the returned display name
is the provider's "Paris". -/
theorem case_insensitive_cache_key_witness :
    strLower "Paris" = strLower "PARIS" ∧
    fetch_current_weather "Paris" 0 (.response 200 parisPayload) []
      = (.ok parisResult, parisCache, 1) ∧
    (10 : Int) - 0 < CACHE_TTL ∧
    fetch_current_weather "PARIS" 10 .transportError parisCache
      = (.ok parisResult, parisCache, 0) ∧
    parisResult.city = parisPayload.name :=
  ⟨by decide, by rfl, by decide,
   (case_insensitive_cache_key.1 "Paris" "PARIS" 0 10 parisPayload
      .transportError [] parisCache parisResult
      (by decide) (by rfl) (by decide)).1,
   (case_insensitive_cache_key.1 "Paris" "PARIS" 0 10 parisPayload
      .transportError [] parisCache parisResult
      (by decide) (by rfl) (by decide)).2⟩

/-! ### C4: 404 maps to the city-not-found condition -/

/-- C4: for every city and either endpoint, whenever the cache cannot
serve the request (so the HTTP request is issued), an HTTP 404 response
yields `CityNotFoundError` and never the generic `WeatherAPIError` — even
though 404 is also a non-2xx status, the not-found check precedes the
generic `raise_for_status` check, so the generic branch never masks it. -/
theorem not_found_mapping :
    (∀ (city : String) (now : Int) (p : CurrentPayload)
        (cache : CurrentCache),
        cacheMiss cache (strLower city) now = true →
        (fetch_current_weather city now (.response 404 p) cache).1
          = .error (.cityNotFound city)) ∧
    (∀ (city : String) (now : Int) (p : ForecastPayload)
        (cache : ForecastCache),
        cacheMiss cache (strLower city) now = true →
        (fetch_forecast city now (.response 404 p) cache).1
          = .error (.cityNotFound city)) := by
  constructor
  · intro city now p cache hmiss
    rw [fetch_current_of_miss city now (.response 404 p) cache hmiss]
    unfold fetchCurrentNetwork
    simp
  · intro city now p cache hmiss
    rw [fetch_forecast_of_miss city now (.response 404 p) cache hmiss]
    unfold fetchForecastNetwork
    simp

/-- Witness for C4: a 404 for "Atlantis" against empty caches yields the
city-not-found error on both endpoints. -/
theorem not_found_mapping_witness :
    cacheMiss ([] : CurrentCache) (strLower "Atlantis") 0 = true ∧
    (fetch_current_weather "Atlantis" 0 (.response 404 parisPayload) []).1
      = .error (.cityNotFound "Atlantis") ∧
    (fetch_forecast "Atlantis" 0 (.response 404 lyonForecastPayload) []).1
      = .error (.cityNotFound "Atlantis") :=
  ⟨by decide,
   not_found_mapping.1 "Atlantis" 0 parisPayload [] (by decide),
   not_found_mapping.2 "Atlantis" 0 lyonForecastPayload [] (by decide)⟩

/-! ### C5: non-404 failures map to the generic provider error -/

/-- C5: for every city and either endpoint, whenever the cache cannot
serve the request, any non-404 non-2xx HTTP status, and any thrown
transport exception, yields the generic `WeatherAPIError` — in
particular never a successful result and never the city-not-found
condition. -/
theorem generic_failure_mapping :
    (∀ (city : String) (now : Int) (status : Nat) (p : CurrentPayload)
        (cache : CurrentCache),
        cacheMiss cache (strLower city) now = true →
        status ≠ 404 → ¬ (200 ≤ status ∧ status < 300) →
        (fetch_current_weather city now (.response status p) cache).1
          = .error (.apiError
              ("HTTP error fetching current weather for " ++ city))) ∧
    (∀ (city : String) (now : Int) (cache : CurrentCache),
        cacheMiss cache (strLower city) now = true →
        (fetch_current_weather city now .transportError cache).1
          = .error (.apiError
              ("Request error fetching current weather for " ++ city))) ∧
    (∀ (city : String) (now : Int) (status : Nat) (p : ForecastPayload)
        (cache : ForecastCache),
        cacheMiss cache (strLower city) now = true →
        status ≠ 404 → ¬ (200 ≤ status ∧ status < 300) →
        (fetch_forecast city now (.response status p) cache).1
          = .error (.apiError
              ("HTTP error fetching forecast for " ++ city))) ∧
    (∀ (city : String) (now : Int) (cache : ForecastCache),
        cacheMiss cache (strLower city) now = true →
        (fetch_forecast city now .transportError cache).1
          = .error (.apiError
              ("Request error fetching forecast for " ++ city))) := by
  refine ⟨?_, ?_, ?_, ?_⟩
  · intro city now status p cache hmiss h404 h2xx
    rw [fetch_current_of_miss city now (.response status p) cache hmiss]
    unfold fetchCurrentNetwork
    simp [h404, h2xx]
  · intro city now cache hmiss
    rw [fetch_current_of_miss city now .transportError cache hmiss]
    rfl
  · intro city now status p cache hmiss h404 h2xx
    rw [fetch_forecast_of_miss city now (.response status p) cache hmiss]
    unfold fetchForecastNetwork
    simp [h404, h2xx]
  · intro city now cache hmiss
    rw [fetch_forecast_of_miss city now .transportError cache hmiss]
    rfl

/-- Witness for C5: a 500 status and a transport exception both yield the
generic provider error, on both endpoints. -/
theorem generic_failure_mapping_witness :
    cacheMiss ([] : CurrentCache) (strLower "Berlin") 0 = true ∧
    (500 : Nat) ≠ 404 ∧ ¬ ((200 : Nat) ≤ 500 ∧ (500 : Nat) < 300) ∧
    (fetch_current_weather "Berlin" 0 (.response 500 parisPayload) []).1
      = .error (.apiError
          ("HTTP error fetching current weather for " ++ "Berlin")) ∧
    (fetch_current_weather "Berlin" 0 .transportError []).1
      = .error (.apiError
          ("Request error fetching current weather for " ++ "Berlin")) ∧
    (fetch_forecast "Berlin" 0 (.response 500 lyonForecastPayload) []).1
      = .error (.apiError ("HTTP error fetching forecast for " ++ "Berlin")) ∧
    (fetch_forecast "Berlin" 0 .transportError []).1
      = .error (.apiError
          ("Request error fetching forecast for " ++ "Berlin")) :=
  ⟨by decide, by decide, by decide,
   generic_failure_mapping.1 "Berlin" 0 500 parisPayload []
     (by decide) (by decide) (by decide),
   generic_failure_mapping.2.1 "Berlin" 0 [] (by decide),
   generic_failure_mapping.2.2.1 "Berlin" 0 500 lyonForecastPayload []
     (by decide) (by decide) (by decide),
   generic_failure_mapping.2.2.2 "Berlin" 0 [] (by decide)⟩

/-! ### C6: field-exact normalization of a current-conditions payload -/

/-- C6: normalization of a current-conditions payload is field-exact:
whenever the cache cannot serve the request and the provider answers 200
with payload `p` whose `weather` array starts with `desc`, the snapshot
is exactly `{city ← p.name, temp ← p.main_temp, condition ← desc,
humidity ← p.main_humidity, wind_speed ← p.wind_speed}`; the witness
instantiates the spec's concrete scenario (`TestCity`, temp 20,
humidity 45, "sunny", wind 3.1). -/
theorem normalization_field_exact :
    ∀ (city : String) (now : Int) (p : CurrentPayload) (desc : String)
      (rest : List String) (cache : CurrentCache),
      cacheMiss cache (strLower city) now = true →
      p.weather = desc :: rest →
      fetch_current_weather city now (.response 200 p) cache
        = (.ok { city := p.name, temp := p.main_temp, condition := desc,
                 humidity := p.main_humidity, wind_speed := p.wind_speed },
           dictInsert cache (strLower city)
             { timestamp := now
               data := { city := p.name, temp := p.main_temp,
                         condition := desc, humidity := p.main_humidity,
                         wind_speed := p.wind_speed } }, 1) := by
  intro city now p desc rest cache hmiss hw
  rw [fetch_current_of_miss city now (.response 200 p) cache hmiss]
  unfold fetchCurrentNetwork
  simp [hw]

/-- Witness for C6: the spec's concrete scenario, payload
`{name:"TestCity", main:{temp:20, humidity:45},
weather:[{description:"sunny"}], wind:{speed:3.1}}` yields the snapshot
`{city:"TestCity", temp:20, condition:"sunny", humidity:45,
wind_speed:3.1}`. -/
theorem normalization_field_exact_witness :
    cacheMiss ([] : CurrentCache) (strLower "TestCity") 0 = true ∧
    ({ name := "TestCity", main_temp := 20, main_humidity := 45,
       weather := ["sunny"], wind_speed := 31/10 } : CurrentPayload).weather
      = "sunny" :: [] ∧
    fetch_current_weather "TestCity" 0
        (.response 200 { name := "TestCity", main_temp := 20,
                         main_humidity := 45, weather := ["sunny"],
                         wind_speed := 31/10 }) []
      = (.ok { city := "TestCity", temp := 20, condition := "sunny",
               humidity := 45, wind_speed := 31/10 },
         dictInsert [] (strLower "TestCity")
           { timestamp := 0
             data := { city := "TestCity", temp := 20, condition := "sunny",
                       humidity := 45, wind_speed := 31/10 } }, 1) :=
  ⟨by decide, by decide,
   normalization_field_exact "TestCity" 0
     { name := "TestCity", main_temp := 20, main_humidity := 45,
       weather := ["sunny"], wind_speed := 31/10 }
     "sunny" [] [] (by decide) (by decide)⟩

/-! ### C7: forecast mapping preserves length and order -/

theorem forecastEntries_length (items : List ForecastItem)
    (es : List ForecastEntry) (h : forecastEntries items = some es) :
    es.length = items.length := by
  induction items generalizing es with
  | nil =>
      unfold forecastEntries at h
      simp at h
      simp [← h]
  | cons item rest ih =>
      unfold forecastEntries at h
      cases hw : item.weather.head? with
      | none => rw [hw] at h; simp at h
      | some desc =>
          rw [hw] at h
          cases he : forecastEntries rest with
          | none => rw [he] at h; simp at h
          | some es' =>
              rw [he] at h
              simp at h
              rw [← h]
              simp [ih es' he]

theorem forecastEntries_get (items : List ForecastItem)
    (es : List ForecastEntry) (h : forecastEntries items = some es)
    (i : Nat) (h1 : i < items.length) (h2 : i < es.length) :
    (es.get ⟨i, h2⟩).datetime = (items.get ⟨i, h1⟩).dt_txt ∧
    (es.get ⟨i, h2⟩).temp = (items.get ⟨i, h1⟩).main_temp ∧
    (items.get ⟨i, h1⟩).weather.head? = some (es.get ⟨i, h2⟩).condition := by
  induction items generalizing es i with
  | nil => simp at h1
  | cons item rest ih =>
      unfold forecastEntries at h
      cases hw : item.weather.head? with
      | none => rw [hw] at h; simp at h
      | some desc =>
          rw [hw] at h
          cases he : forecastEntries rest with
          | none => rw [he] at h; simp at h
          | some es' =>
              rw [he] at h
              simp at h
              subst h
              cases i with
              | zero => simp [hw]
              | succ n =>
                  have hn1 : n < rest.length := by
                    simpa using h1
                  have hn2 : n < es'.length := by
                    simpa using h2
                  simpa using ih es' he n hn1 hn2

/-- C7: for every provider forecast payload whose items all parse (each
has a first `weather` description), `fetch_forecast` on a cache miss with
a 200 response returns `city ← city.name` and a `forecasts` list of the
same length as the provider `list`, in provider order, with
`datetime ← dt_txt`, `temp ← main.temp`,
`condition ← weather[0].description` at every index — no reordering,
filtering, deduplication, or truncation. -/
theorem forecast_order_preserved :
    ∀ (city : String) (now : Int) (p : ForecastPayload)
      (es : List ForecastEntry) (cache : ForecastCache),
      cacheMiss cache (strLower city) now = true →
      forecastEntries p.list = some es →
      (fetch_forecast city now (.response 200 p) cache).1
        = .ok { city := p.city_name, forecasts := es } ∧
      es.length = p.list.length ∧
      ∀ (i : Nat) (h1 : i < p.list.length) (h2 : i < es.length),
        (es.get ⟨i, h2⟩).datetime = (p.list.get ⟨i, h1⟩).dt_txt ∧
        (es.get ⟨i, h2⟩).temp = (p.list.get ⟨i, h1⟩).main_temp ∧
        (p.list.get ⟨i, h1⟩).weather.head?
          = some (es.get ⟨i, h2⟩).condition := by
  intro city now p es cache hmiss hfe
  refine ⟨?_, forecastEntries_length p.list es hfe,
          fun i h1 h2 => forecastEntries_get p.list es hfe i h1 h2⟩
  rw [fetch_forecast_of_miss city now (.response 200 p) cache hmiss]
  unfold fetchForecastNetwork
  simp [hfe]

/-- Witness for C7: the spec's concrete two-item forecast payload; the
first returned entry is `{datetime:"2025-01-01 00:00:00", temp:1,
condition:"snow"}`, the length matches, and the order is the input
order. -/
theorem forecast_order_preserved_witness :
    cacheMiss ([] : ForecastCache) (strLower "Lyon") 0 = true ∧
    forecastEntries lyonForecastPayload.list
      = some lyonForecastResult.forecasts ∧
    (fetch_forecast "Lyon" 0 (.response 200 lyonForecastPayload) []).1
      = .ok { city := lyonForecastPayload.city_name,
              forecasts := lyonForecastResult.forecasts } ∧
    lyonForecastResult.forecasts.length = lyonForecastPayload.list.length ∧
    (lyonForecastResult.forecasts.get ⟨0, by decide⟩).datetime
      = (lyonForecastPayload.list.get ⟨0, by decide⟩).dt_txt ∧
    (lyonForecastResult.forecasts.get ⟨1, by decide⟩).datetime
      = (lyonForecastPayload.list.get ⟨1, by decide⟩).dt_txt :=
  ⟨by decide, by decide,
   (forecast_order_preserved "Lyon" 0 lyonForecastPayload
      lyonForecastResult.forecasts [] (by decide) (by decide)).1,
   (forecast_order_preserved "Lyon" 0 lyonForecastPayload
      lyonForecastResult.forecasts [] (by decide) (by decide)).2.1,
   ((forecast_order_preserved "Lyon" 0 lyonForecastPayload
      lyonForecastResult.forecasts [] (by decide) (by decide)).2.2 0
      (by decide) (by decide)).1,
   ((forecast_order_preserved "Lyon" 0 lyonForecastPayload
      lyonForecastResult.forecasts [] (by decide) (by decide)).2.2 1
      (by decide) (by decide)).1⟩

/-! ### C8: a cache entry is written exactly on a successful fetch -/

theorem fetch_current_of_fresh (city : String) (now : Int)
    (resp : HttpResponse CurrentPayload) (cache : CurrentCache)
    (h : cacheMiss cache (strLower city) now = false) :
    ∃ entry : CacheEntry CurrentResult,
      dictGet cache (strLower city) = some entry ∧
      fetch_current_weather city now resp cache
        = (.ok entry.data, cache, 0) := by
  unfold cacheMiss at h
  cases hg : dictGet cache (strLower city) with
  | none => rw [hg] at h; simp at h
  | some entry =>
      rw [hg] at h
      by_cases hf : now - entry.timestamp < CACHE_TTL
      · exact ⟨entry, rfl, fetch_current_hit city now resp cache entry hg hf⟩
      · simp [hf] at h

theorem fetch_forecast_of_fresh (city : String) (now : Int)
    (resp : HttpResponse ForecastPayload) (cache : ForecastCache)
    (h : cacheMiss cache (strLower city) now = false) :
    ∃ entry : CacheEntry ForecastResult,
      dictGet cache (strLower city) = some entry ∧
      fetch_forecast city now resp cache = (.ok entry.data, cache, 0) := by
  unfold cacheMiss at h
  cases hg : dictGet cache (strLower city) with
  | none => rw [hg] at h; simp at h
  | some entry =>
      rw [hg] at h
      by_cases hf : now - entry.timestamp < CACHE_TTL
      · exact ⟨entry, rfl, fetch_forecast_hit city now resp cache entry hg hf⟩
      · simp [hf] at h

theorem fetch_current_error_cache (city : String) (now : Int)
    (resp : HttpResponse CurrentPayload) (cache : CurrentCache)
    (e : WeatherError)
    (h : (fetch_current_weather city now resp cache).1 = .error e) :
    (fetch_current_weather city now resp cache).2.1 = cache := by
  cases hmiss : cacheMiss cache (strLower city) now with
  | true =>
      rw [fetch_current_of_miss city now resp cache hmiss] at h ⊢
      exact fetchCurrentNetwork_error_cache city now resp cache
        (strLower city) e h
  | false =>
      obtain ⟨entry, hg, heq⟩ := fetch_current_of_fresh city now resp cache hmiss
      rw [heq] at h
      simp at h

theorem fetch_forecast_error_cache (city : String) (now : Int)
    (resp : HttpResponse ForecastPayload) (cache : ForecastCache)
    (e : WeatherError)
    (h : (fetch_forecast city now resp cache).1 = .error e) :
    (fetch_forecast city now resp cache).2.1 = cache := by
  cases hmiss : cacheMiss cache (strLower city) now with
  | true =>
      rw [fetch_forecast_of_miss city now resp cache hmiss] at h ⊢
      exact fetchForecastNetwork_error_cache city now resp cache
        (strLower city) e h
  | false =>
      obtain ⟨entry, hg, heq⟩ := fetch_forecast_of_fresh city now resp cache hmiss
      rw [heq] at h
      simp at h

theorem fetch_current_cache_shape (city : String) (now : Int)
    (resp : HttpResponse CurrentPayload) (cache : CurrentCache) :
    (fetch_current_weather city now resp cache).2.1 = cache ∨
    ∃ r : CurrentResult,
      (fetch_current_weather city now resp cache).2.1
        = dictInsert cache (strLower city) { timestamp := now, data := r } := by
  cases hmiss : cacheMiss cache (strLower city) now with
  | false =>
      obtain ⟨entry, hg, heq⟩ := fetch_current_of_fresh city now resp cache hmiss
      rw [heq]
      exact Or.inl rfl
  | true =>
      rw [fetch_current_of_miss city now resp cache hmiss]
      cases hr : (fetchCurrentNetwork city now resp cache (strLower city)).1 with
      | error e =>
          exact Or.inl (fetchCurrentNetwork_error_cache city now resp cache
            (strLower city) e hr)
      | ok r =>
          exact Or.inr ⟨r, by
            rw [fetchCurrentNetwork_ok city now resp cache (strLower city) r hr]⟩

theorem fetch_forecast_cache_shape (city : String) (now : Int)
    (resp : HttpResponse ForecastPayload) (cache : ForecastCache) :
    (fetch_forecast city now resp cache).2.1 = cache ∨
    ∃ r : ForecastResult,
      (fetch_forecast city now resp cache).2.1
        = dictInsert cache (strLower city) { timestamp := now, data := r } := by
  cases hmiss : cacheMiss cache (strLower city) now with
  | false =>
      obtain ⟨entry, hg, heq⟩ := fetch_forecast_of_fresh city now resp cache hmiss
      rw [heq]
      exact Or.inl rfl
  | true =>
      rw [fetch_forecast_of_miss city now resp cache hmiss]
      cases hr : (fetchForecastNetwork city now resp cache (strLower city)).1 with
      | error e =>
          exact Or.inl (fetchForecastNetwork_error_cache city now resp cache
            (strLower city) e hr)
      | ok r =>
          exact Or.inr ⟨r, by
            rw [fetchForecastNetwork_ok city now resp cache (strLower city) r hr]⟩

/-- C8: for both kinds, a cache entry is created or overwritten exactly
on a successful fetch and never otherwise: a failed fetch (not-found,
HTTP error, transport failure, or malformed payload) leaves the cache
unchanged; no fetch ever deletes an existing entry (every key present
before is present after); and a successful fetch that issued its network
call writes exactly the entry `(now, result)` under the lower-cased
city. -/
theorem cache_entry_lifecycle :
    (∀ (city : String) (now : Int) (resp : HttpResponse CurrentPayload)
        (cache : CurrentCache) (e : WeatherError),
        (fetch_current_weather city now resp cache).1 = .error e →
        (fetch_current_weather city now resp cache).2.1 = cache) ∧
    (∀ (city : String) (now : Int) (resp : HttpResponse CurrentPayload)
        (cache : CurrentCache) (k : String) (v : CacheEntry CurrentResult),
        dictGet cache k = some v →
        (dictGet (fetch_current_weather city now resp cache).2.1 k).isSome
          = true) ∧
    (∀ (city : String) (now : Int) (resp : HttpResponse CurrentPayload)
        (cache : CurrentCache) (r : CurrentResult),
        (fetch_current_weather city now resp cache).1 = .ok r →
        (fetch_current_weather city now resp cache).2.2 = 1 →
        (fetch_current_weather city now resp cache).2.1
          = dictInsert cache (strLower city) { timestamp := now, data := r }) ∧
    (∀ (city : String) (now : Int) (resp : HttpResponse ForecastPayload)
        (cache : ForecastCache) (e : WeatherError),
        (fetch_forecast city now resp cache).1 = .error e →
        (fetch_forecast city now resp cache).2.1 = cache) ∧
    (∀ (city : String) (now : Int) (resp : HttpResponse ForecastPayload)
        (cache : ForecastCache) (k : String) (v : CacheEntry ForecastResult),
        dictGet cache k = some v →
        (dictGet (fetch_forecast city now resp cache).2.1 k).isSome = true) ∧
    (∀ (city : String) (now : Int) (resp : HttpResponse ForecastPayload)
        (cache : ForecastCache) (r : ForecastResult),
        (fetch_forecast city now resp cache).1 = .ok r →
        (fetch_forecast city now resp cache).2.2 = 1 →
        (fetch_forecast city now resp cache).2.1
          = dictInsert cache (strLower city)
              { timestamp := now, data := r }) := by
  refine ⟨fetch_current_error_cache, ?_, ?_, fetch_forecast_error_cache, ?_, ?_⟩
  · intro city now resp cache k v hv
    cases fetch_current_cache_shape city now resp cache with
    | inl hsame => rw [hsame, hv]; rfl
    | inr hins =>
        obtain ⟨r, hins⟩ := hins
        rw [hins]
        exact dictGet_dictInsert_isSome cache (strLower city) k _
          (by rw [hv]; rfl)
  · intro city now resp cache r hok hcalls
    have hnet := fetch_current_network_of_calls_one city now resp cache hcalls
    rw [hnet] at hok ⊢
    rw [fetchCurrentNetwork_ok city now resp cache (strLower city) r hok]
  · intro city now resp cache k v hv
    cases fetch_forecast_cache_shape city now resp cache with
    | inl hsame => rw [hsame, hv]; rfl
    | inr hins =>
        obtain ⟨r, hins⟩ := hins
        rw [hins]
        exact dictGet_dictInsert_isSome cache (strLower city) k _
          (by rw [hv]; rfl)
  · intro city now resp cache r hok hcalls
    have hnet := fetch_forecast_network_of_calls_one city now resp cache hcalls
    rw [hnet] at hok ⊢
    rw [fetchForecastNetwork_ok city now resp cache (strLower city) r hok]

/-- Witness for C8: a failing (500) fetch of "Rome" leaves the non-empty
current cache exactly as it was and keeps the existing "paris" entry; a
successful fetch against the empty cache writes exactly its entry. -/
theorem cache_entry_lifecycle_witness :
    (fetch_current_weather "Rome" 0 (.response 500 parisPayload)
        parisCache).1
      = .error (.apiError ("HTTP error fetching current weather for "
          ++ "Rome")) ∧
    (fetch_current_weather "Rome" 0 (.response 500 parisPayload)
        parisCache).2.1 = parisCache ∧
    dictGet parisCache "paris"
      = some { timestamp := 0, data := parisResult } ∧
    (dictGet (fetch_current_weather "Rome" 0 (.response 500 parisPayload)
        parisCache).2.1 "paris").isSome = true ∧
    (fetch_current_weather "Paris" 0 (.response 200 parisPayload) []).1
      = .ok parisResult ∧
    (fetch_current_weather "Paris" 0 (.response 200 parisPayload) []).2.2
      = 1 ∧
    (fetch_current_weather "Paris" 0 (.response 200 parisPayload) []).2.1
      = dictInsert [] (strLower "Paris") { timestamp := 0, data := parisResult } ∧
    (fetch_forecast "Rome" 0 .transportError lyonForecastCache).1
      = .error (.apiError ("Request error fetching forecast for "
          ++ "Rome")) ∧
    (fetch_forecast "Rome" 0 .transportError lyonForecastCache).2.1
      = lyonForecastCache :=
  ⟨by rfl,
   cache_entry_lifecycle.1 "Rome" 0 (.response 500 parisPayload) parisCache
     (.apiError ("HTTP error fetching current weather for " ++ "Rome"))
     (by rfl),
   by decide,
   cache_entry_lifecycle.2.1 "Rome" 0 (.response 500 parisPayload) parisCache
     "paris" { timestamp := 0, data := parisResult } (by decide),
   by rfl, by rfl,
   cache_entry_lifecycle.2.2.1 "Paris" 0 (.response 200 parisPayload) []
     parisResult (by rfl) (by rfl),
   by rfl,
   cache_entry_lifecycle.2.2.2.1 "Rome" 0 .transportError lyonForecastCache
     (.apiError ("Request error fetching forecast for " ++ "Rome"))
     (by rfl)⟩

/-! ### C9: the facade's documented "None on error" contract -/

/-- C9 (documents a discrepancy in the code): the facade operations
`get_current_weather` / `get_forecast` document "returns ... or None on
error", but their bodies are bare `return fetch_*(city)` with no
`try`/`except`, so a client failure propagates to the caller unchanged
instead of becoming an absent result.  At the concrete failing input (a
404 for "Atlantis" against empty caches) both facade operations are
identical to the client call and surface the city-not-found error — not
an absent result. -/
theorem facade_propagates_failure :
    get_current_weather "Atlantis" 0 (.response 404 parisPayload) []
      = fetch_current_weather "Atlantis" 0 (.response 404 parisPayload) [] ∧
    (get_current_weather "Atlantis" 0 (.response 404 parisPayload) []).1
      = .error (.cityNotFound "Atlantis") ∧
    get_forecast "Atlantis" 0 (.response 404 lyonForecastPayload) []
      = fetch_forecast "Atlantis" 0 (.response 404 lyonForecastPayload) [] ∧
    (get_forecast "Atlantis" 0 (.response 404 lyonForecastPayload) []).1
      = .error (.cityNotFound "Atlantis") :=
  ⟨rfl, by rfl, rfl, by rfl⟩

/-! ### C10: CityNotFoundError is a subclass of WeatherAPIError -/

/-- C10: `class CityNotFoundError(WeatherAPIError)` makes the not-found
condition a subclass of the generic error, so every failure raised by
`fetch_current_weather` or `fetch_forecast` — including city-not-found —
is an instance of `WeatherAPIError`; a handler list that checks the
generic class first intercepts city-not-found too (both raised classes
dispatch to clause 0), and the two conditions are distinguished exactly
when the specific subtype is checked first. -/
theorem city_not_found_is_api_error :
    isSubclass .cityNotFoundError .weatherAPIError = true ∧
    (∀ (city : String) (now : Int) (resp : HttpResponse CurrentPayload)
        (cache : CurrentCache) (e : WeatherError),
        (fetch_current_weather city now resp cache).1 = .error e →
        isSubclass e.classOf .weatherAPIError = true) ∧
    (∀ (city : String) (now : Int) (resp : HttpResponse ForecastPayload)
        (cache : ForecastCache) (e : WeatherError),
        (fetch_forecast city now resp cache).1 = .error e →
        isSubclass e.classOf .weatherAPIError = true) ∧
    firstHandler .cityNotFoundError [.weatherAPIError, .cityNotFoundError]
      = some 0 ∧
    firstHandler .weatherAPIError [.weatherAPIError, .cityNotFoundError]
      = some 0 ∧
    firstHandler .cityNotFoundError [.cityNotFoundError, .weatherAPIError]
      = some 0 ∧
    firstHandler .weatherAPIError [.cityNotFoundError, .weatherAPIError]
      = some 1 := by
  refine ⟨by decide, ?_, ?_, by decide, by decide, by decide, by decide⟩
  · intro city now resp cache e _h
    cases e <;> rfl
  · intro city now resp cache e _h
    cases e <;> rfl

/-- Witness for C10: the city-not-found failure raised by a concrete 404
fetch on each endpoint is an instance of `WeatherAPIError`. -/
theorem city_not_found_is_api_error_witness :
    (fetch_current_weather "Nowhere" 0 (.response 404 parisPayload) []).1
      = .error (.cityNotFound "Nowhere") ∧
    isSubclass (WeatherError.cityNotFound "Nowhere").classOf .weatherAPIError
      = true ∧
    (fetch_forecast "Nowhere" 0 .transportError []).1
      = .error (.apiError ("Request error fetching forecast for "
          ++ "Nowhere")) ∧
    isSubclass (WeatherError.apiError ("Request error fetching forecast for "
        ++ "Nowhere")).classOf .weatherAPIError = true :=
  ⟨by rfl,
   city_not_found_is_api_error.2.1 "Nowhere" 0 (.response 404 parisPayload)
     [] (.cityNotFound "Nowhere") (by rfl),
   by rfl,
   city_not_found_is_api_error.2.2.1 "Nowhere" 0 .transportError
     [] (.apiError ("Request error fetching forecast for " ++ "Nowhere"))
     (by rfl)⟩

end WeatherApp
